import Mathlib

/-!
Shallow embedding of the catalog object descriptor engine of
`pgcli/packages/pgspecial.py`, together with proofs about the claims made by
its specification.

Conventions of the embedding:
* Python values that can be `None`, a string, an int or a bool are modelled by
  the `Val` type; variables that are either `None` or a string are modelled by
  `Option String`.
* Python exceptions (`TypeError`, `NameError`, `IndexError`) are modelled by
  `Except PyErr`; a raised exception aborts the surrounding call, discarding
  any partially accumulated output, exactly as a Python `raise` does.
* Result rows coming back from the database are inputs of the embedding: each
  SQL query issued by the source corresponds to a field of `RelDb`/`Db`
  holding its result set.  Where the query's `WHERE`/`ORDER BY` clause
  computes something the source relies on (the column query's
  `attnum > 0 AND NOT attisdropped ORDER BY attnum`), that clause is modelled
  as an explicit filter and sort over the raw rows.
* `psycopg2` cursors are consumed by iteration: after one `for row in cur`
  pass the cursor yields no further rows.  Loops in the source that iterate
  the same cursor twice therefore see an empty result the second time, and
  the embedding makes that explicit.
-/

/-- Python exception kinds raised by the code paths modelled here. -/
inductive PyErr where
  | typeError
  | nameError
  | indexError
deriving DecidableEq, Repr

/-- A dynamically typed Python value as it appears in result cells. -/
inductive Val where
  | none
  | str (s : String)
  | int (n : Int)
  | bool (b : Bool)
deriving DecidableEq, Repr

/-- Python truthiness of a `Val`. -/
def truthyVal : Val → Bool
  | Val.none => false
  | Val.str s => s ≠ ""
  | Val.int n => n ≠ 0
  | Val.bool b => b

/-- Python `str()` of a `Val` (as used by `"%s" % v`). -/
def pyValStr : Val → String
  | Val.none => "None"
  | Val.str s => s
  | Val.int n => toString n
  | Val.bool b => if b then "True" else "False"

/-- Python truthiness of an optional string (`None` and `''` are falsy). -/
def truthyOpt : Option String → Bool
  | none => false
  | some s => s ≠ ""

/-! ## Name pattern compiler: `sql_name_pattern` -/

/-- The regex metacharacters escaped inside quotes:
`c in '|*+?()[]{}.^\\'` (the braces are written numerically). -/
def metaChars : List Char :=
  ['|', '*', '+', '?', '(', ')', '[', ']', Char.ofNat 123, Char.ofNat 125,
   '.', '^', '\\']

/-- One step of the scan of `sql_name_pattern` for a character other than a
double quote: the `elif`/`else` chain of the loop body.  Returns the new
`(inquotes, schema, relname)` state. -/
def charStep (inq : Bool) (schema : Option (List Char)) (rel : List Char)
    (c : Char) : Bool × Option (List Char) × List Char :=
  if ¬inq ∧ c.isUpper then (inq, schema, rel ++ [c.toLower])
  else if ¬inq ∧ c = '*' then (inq, schema, rel ++ ['.', '*'])
  else if ¬inq ∧ c = '?' then (inq, schema, rel ++ ['.'])
  else if ¬inq ∧ c = '.' then (inq, some rel, [])
  else if c = '$' ∨ (inq ∧ metaChars.contains c) then (inq, schema, rel ++ ['\\', c])
  else (inq, schema, rel ++ [c])

/-- The character scan of `sql_name_pattern`.  The singleton and two-element
patterns reflect the source's one-character lookahead
`i + 1 < pattern_len and pattern[i + 1] == '"'`: a doubled quote inside quotes
emits one literal quote and consumes both characters; any other quote toggles
the `inquotes` flag. -/
def scan (inq : Bool) (schema : Option (List Char)) (rel : List Char) :
    List Char → Bool × Option (List Char) × List Char
  | [] => (inq, schema, rel)
  | [c] =>
      if c = '"' then (!inq, schema, rel)
      else charStep inq schema rel c
  | c :: c2 :: rest =>
      if c = '"' then
        if inq ∧ c2 = '"' then scan inq schema (rel ++ ['"']) rest
        else scan (!inq) schema rel (c2 :: rest)
      else
        scan (charStep inq schema rel c).1 (charStep inq schema rel c).2.1
          (charStep inq schema rel c).2.2 (c2 :: rest)

/-- `noUnquotedDot inq l` is true when scanning `l` from quote state `inq`
meets no unquoted `.` (the branch of the scan that commits the accumulator to
the schema).  It follows the scan's quote handling exactly. -/
def noUnquotedDot (inq : Bool) : List Char → Bool
  | [] => true
  | [c] =>
      if c = '"' then true
      else if ¬inq ∧ c = '.' then false
      else true
  | c :: c2 :: rest =>
      if c = '"' then
        if inq ∧ c2 = '"' then noUnquotedDot inq rest
        else noUnquotedDot (!inq) (c2 :: rest)
      else if ¬inq ∧ c = '.' then false
      else noUnquotedDot inq (c2 :: rest)

/-- `'^(' + s + ')$'` when `s` is truthy, otherwise `s` unchanged. -/
def wrapIfNonempty (l : List Char) : String :=
  if l ≠ [] then String.mk ('^' :: '(' :: (l ++ [')', '$'])) else String.mk l

/-- `sql_name_pattern` on the character list of the pattern.  The returned
pair is `(schema, relname)`; `none` models Python's `None` (the schema
variable is initialised to `None`, the relname accumulator to `''`, so the
second component is always `some`). -/
def sqlNamePatternL (l : List Char) : Option String × Option String :=
  (match (scan false none [] l).2.1 with
   | none => none
   | some s => some (wrapIfNonempty s),
   some (wrapIfNonempty (scan false none [] l).2.2))

/-- `sql_name_pattern(pattern)`: compile a wildcard pattern into an optional
schema regex source and a name regex source. -/
def sql_name_pattern (p : String) : Option String × Option String :=
  sqlNamePatternL p.toList

/-! ## `list_roles` / `list_schemas` filter construction -/

/-- The regex parameter `list_roles` binds into its `WHERE r.rolname ~ %s`
clause: the source unpacks `_, schema = sql_name_pattern(pattern)`, i.e. it
discards the schema component and uses the *name* component, and it adds the
clause only for a truthy pattern.  `none` means no `WHERE` clause was added. -/
def list_roles_filter (pattern : String) : Option (Option String) :=
  if pattern ≠ "" then some (sql_name_pattern pattern).2 else none

/-- The regex parameter `list_schemas` binds into its `n.nspname ~ %s` clause,
built the same way as in `list_roles` (`_, schema = sql_name_pattern(...)`). -/
def list_schemas_filter (pattern : String) : Option (Option String) :=
  if pattern ≠ "" then some (sql_name_pattern pattern).2 else none

/-! ## Lemmas about the scan -/

theorem charStep_fst (inq : Bool) (schema : Option (List Char)) (rel : List Char)
    (c : Char) : (charStep inq schema rel c).1 = inq := by
  unfold charStep
  split_ifs <;> rfl

theorem charStep_schema (inq : Bool) (schema : Option (List Char)) (rel : List Char)
    (c : Char) (h : ¬(¬inq ∧ c = '.')) : (charStep inq schema rel c).2.1 = schema := by
  unfold charStep
  split_ifs with h1 h2 h3 h4 <;> rfl

theorem charStep_dot {schema : Option (List Char)} {rel : List Char} :
    charStep false schema rel '.' = (false, some rel, []) := rfl

theorem scan_sgl_quote {inq : Bool} {schema : Option (List Char)} {rel : List Char} :
    scan inq schema rel ['"'] = (!inq, schema, rel) := rfl

theorem scan_sgl {inq : Bool} {schema : Option (List Char)} {rel : List Char}
    {c : Char} (hc : c ≠ '"') : scan inq schema rel [c] = charStep inq schema rel c := by
  rw [scan, if_neg hc]

theorem scan_dblquote {schema : Option (List Char)} {rel : List Char} {rest : List Char} :
    scan true schema rel ('"' :: '"' :: rest) = scan true schema (rel ++ ['"']) rest := rfl

theorem scan_quote_cons {inq : Bool} {schema : Option (List Char)} {rel : List Char}
    {c2 : Char} {rest : List Char} (hq : ¬(inq ∧ c2 = '"')) :
    scan inq schema rel ('"' :: c2 :: rest) = scan (!inq) schema rel (c2 :: rest) := by
  rw [scan, if_pos rfl, if_neg hq]

theorem scan_cons2_step {inq : Bool} {schema : Option (List Char)} {rel : List Char}
    {c c2 : Char} {rest : List Char} (hc : c ≠ '"') :
    scan inq schema rel (c :: c2 :: rest) =
      scan (charStep inq schema rel c).1 (charStep inq schema rel c).2.1
        (charStep inq schema rel c).2.2 (c2 :: rest) := by
  rw [scan, if_neg hc]

/-- Scanning a segment without any unquoted dot never changes the schema
accumulator (length-bounded form, for induction). -/
theorem scan_schema_eq (n : Nat) : ∀ l : List Char, l.length ≤ n →
    ∀ (inq : Bool) (schema : Option (List Char)) (rel : List Char),
    noUnquotedDot inq l = true → (scan inq schema rel l).2.1 = schema := by
  induction n with
  | zero =>
    intro l hl inq schema rel _
    have : l = [] := List.length_eq_zero.mp (Nat.le_zero.mp hl)
    subst this
    rfl
  | succ n ih =>
    intro l hl inq schema rel hnd
    match l with
    | [] => rfl
    | [c] =>
      by_cases hc : c = '"'
      · simp [scan, hc]
      · rw [scan]
        rw [if_neg hc]
        have hx : ¬(¬inq ∧ c = '.') := by
          by_contra hcon
          simp [noUnquotedDot, hc, hcon] at hnd
        exact charStep_schema inq schema rel c hx
    | c :: c2 :: rest =>
      have hlen2 : rest.length ≤ n := by
        simp only [List.length_cons] at hl
        omega
      have hlen1 : (c2 :: rest).length ≤ n := by
        simp only [List.length_cons] at hl ⊢
        omega
      by_cases hc : c = '"'
      · by_cases hq : inq ∧ c2 = '"'
        · rw [scan, if_pos hc, if_pos hq]
          rw [noUnquotedDot, if_pos hc, if_pos hq] at hnd
          exact ih rest hlen2 inq schema (rel ++ ['"']) hnd
        · rw [scan, if_pos hc, if_neg hq]
          rw [noUnquotedDot, if_pos hc, if_neg hq] at hnd
          exact ih (c2 :: rest) hlen1 (!inq) schema rel hnd
      · have hx : ¬(¬inq ∧ c = '.') := by
          by_contra hcon
          rw [noUnquotedDot, if_neg hc, if_pos hcon] at hnd
          exact Bool.false_ne_true hnd
        rw [scan, if_neg hc]
        rw [noUnquotedDot, if_neg hc, if_neg hx] at hnd
        rw [charStep_fst, charStep_schema inq schema rel c hx]
        exact ih (c2 :: rest) hlen1 inq schema (charStep inq schema rel c).2.2 hnd

/-- The scan is compositional at any split point whose right part does not
start with a quote (the only character the scan looks ahead at). -/
theorem scan_append_aux (n : Nat) : ∀ xs : List Char, xs.length ≤ n →
    ∀ (ys : List Char) (inq : Bool) (schema : Option (List Char)) (rel : List Char),
    ys.head? ≠ some '"' →
    scan inq schema rel (xs ++ ys) =
      scan (scan inq schema rel xs).1 (scan inq schema rel xs).2.1
        (scan inq schema rel xs).2.2 ys := by
  induction n with
  | zero =>
    intro xs hx ys inq schema rel _
    have : xs = [] := List.length_eq_zero.mp (Nat.le_zero.mp hx)
    subst this
    rfl
  | succ n ih =>
    intro xs hx ys inq schema rel hy
    match xs with
    | [] => rfl
    | [c] =>
      match ys with
      | [] => simp [scan]
      | y :: ys' =>
        have hy' : y ≠ '"' := by
          intro h
          exact hy (by simp [h])
        by_cases hc : c = '"'
        · subst hc
          have hq : ¬(inq ∧ y = '"') := fun h => hy' h.2
          show scan inq schema rel ('"' :: y :: ys') = _
          rw [scan_sgl_quote, scan_quote_cons hq]
        · show scan inq schema rel (c :: y :: ys') = _
          rw [scan_sgl hc, scan_cons2_step hc]
    | c :: c2 :: rest =>
      have hlen2 : rest.length ≤ n := by
        simp only [List.length_cons] at hx
        omega
      have hlen1 : (c2 :: rest).length ≤ n := by
        simp only [List.length_cons] at hx ⊢
        omega
      by_cases hc : c = '"'
      · by_cases hq : inq ∧ c2 = '"'
        · obtain ⟨hinq, hc2⟩ := hq
          subst hc hc2 hinq
          show scan true schema rel ('"' :: '"' :: (rest ++ ys)) = _
          rw [scan_dblquote, scan_dblquote]
          exact ih rest hlen2 ys true schema (rel ++ ['"']) hy
        · subst hc
          show scan inq schema rel ('"' :: c2 :: (rest ++ ys)) = _
          rw [scan_quote_cons hq, scan_quote_cons hq]
          have := ih (c2 :: rest) hlen1 ys (!inq) schema rel hy
          simpa using this
      · show scan inq schema rel (c :: c2 :: (rest ++ ys)) = _
        rw [scan_cons2_step hc, scan_cons2_step hc]
        have := ih (c2 :: rest) hlen1 ys (charStep inq schema rel c).1
          (charStep inq schema rel c).2.1 (charStep inq schema rel c).2.2 hy
        simpa using this

theorem toList_append_eq (s t : String) : (s ++ t).toList = s.toList ++ t.toList := by
  cases s
  cases t
  rfl

/-- After the last unquoted dot, the schema value is frozen: appending any
dot-free (modulo quoting) suffix after an unquoted dot leaves the schema
component of the scan unchanged. -/
theorem schema_prefix_aux (p1 p2 : List Char)
    (h1 : (scan false none [] p1).1 = false)
    (h2 : noUnquotedDot false p2 = true) :
    (scan false none [] (p1 ++ '.' :: p2)).2.1 =
      (scan false none [] (p1 ++ ['.'])).2.1 := by
  have hdot : (('.' :: p2) : List Char).head? ≠ some '"' := by simp
  have hdot1 : ((['.'] : List Char)).head? ≠ some '"' := by simp
  rw [scan_append_aux p1.length p1 le_rfl ('.' :: p2) false none [] hdot]
  rw [scan_append_aux p1.length p1 le_rfl ['.'] false none [] hdot1]
  rw [h1]
  match p2 with
  | [] => rfl
  | q :: p2' =>
    have hne : ('.' : Char) ≠ '"' := by decide
    rw [scan_cons2_step hne, scan_sgl hne, charStep_dot]
    dsimp only
    exact scan_schema_eq (q :: p2').length (q :: p2') le_rfl false
      (some (scan false none [] p1).2.2) [] h2

/-! ## Claims about the name pattern compiler -/

/-- Claim C2: pattern compilation round trip — compiling the pattern
`foo*."b""$ar*"` yields schema source `^(foo.*)$` and name source
`^(b"\$ar\*)$`: the unquoted `*` expands to `.*`, the doubled `""` inside
quotes yields one literal `"`, the `$` is backslash-escaped, and the quoted
`*` is backslash-escaped. -/
theorem C2_theorem :
    sql_name_pattern "foo*.\"b\"\"$ar*\"" =
      (some "^(foo.*)$", some "^(b\"\\$ar\\*)$") := by
  rfl

/-- Claim C3: last-unquoted-dot split.  First part: when a pattern consists of
a prefix `p1` (scanned to a closed-quote state), an unquoted dot, and a
suffix `p2` containing no further unquoted dot, the schema source of the
compiled pattern equals that of `p1 ++ "."` alone — the schema source derives
only from the text up to the last unquoted dot.  Second part: a pattern with
no unquoted dot compiles to an absent (`None`) schema source. -/
theorem C3_theorem :
    (∀ p1 p2 : String, (scan false none [] p1.toList).1 = false →
        noUnquotedDot false p2.toList = true →
        (sql_name_pattern (p1 ++ "." ++ p2)).1 = (sql_name_pattern (p1 ++ ".")).1)
    ∧ ∀ p : String, noUnquotedDot false p.toList = true →
        (sql_name_pattern p).1 = none := by
  constructor
  · intro p1 p2 h1 h2
    unfold sql_name_pattern sqlNamePatternL
    have hl1 : (p1 ++ "." ++ p2).toList = p1.toList ++ '.' :: p2.toList := by
      rw [toList_append_eq, toList_append_eq, List.append_assoc]
      rfl
    have hl2 : (p1 ++ ".").toList = p1.toList ++ ['.'] := by
      rw [toList_append_eq]
      rfl
    rw [hl1, hl2]
    rw [schema_prefix_aux p1.toList p2.toList h1 h2]
  · intro p h
    unfold sql_name_pattern sqlNamePatternL
    rw [scan_schema_eq p.toList.length p.toList le_rfl false none [] h]

/-- Witness for C3: applied to the concrete split `foo` / `.` / `bar` and to
the dot-free pattern `bar`. -/
theorem C3_witness :
    (sql_name_pattern ("foo" ++ "." ++ "bar")).1 = (sql_name_pattern ("foo" ++ ".")).1
    ∧ (sql_name_pattern "bar").1 = none :=
  ⟨C3_theorem.1 "foo" "bar" (by decide) (by decide),
   C3_theorem.2 "bar" (by decide)⟩

/-- Claim C9 counterexample: compiling the empty pattern does *not* yield
`(None, None)`; the name component of the result is the (falsy, but not
`None`) empty string, because the source only wraps a truthy accumulator and
returns the accumulator itself otherwise. -/
theorem C9_counterexample : sql_name_pattern "" ≠ (none, none) := by
  decide

/-- Claim C9 (amended): compiling the empty pattern yields `(None, '')` — the
schema filter is `None` and the name filter is the empty string; both are
falsy in Python, so callers treat both as "no filter". -/
theorem C9_theorem : sql_name_pattern "" = (none, some "") := by
  rfl

/-- Claim C10: `list_roles` and `list_schemas` filter only by the *name*
component of the compiled pattern.  For every non-empty pattern the bound
regex parameter is exactly `(sql_name_pattern pattern).2`; consequently the
schema qualifier of `public.joe` is silently discarded — the constructed
filter coincides with that of the bare pattern `joe`, even though the
compiled schema component `^(public)$` is present. -/
theorem C10_theorem :
    (∀ p : String, p ≠ "" →
        list_roles_filter p = some (sql_name_pattern p).2
        ∧ list_schemas_filter p = some (sql_name_pattern p).2)
    ∧ (sql_name_pattern "public.joe").1 = some "^(public)$"
    ∧ list_roles_filter "public.joe" = list_roles_filter "joe"
    ∧ list_schemas_filter "public.joe" = list_schemas_filter "joe" := by
  refine ⟨?_, by decide, by decide, by decide⟩
  intro p hp
  unfold list_roles_filter list_schemas_filter
  rw [if_pos hp]
  exact ⟨rfl, rfl⟩

/-- Witness for C10: applied at the concrete pattern `public.joe`. -/
theorem C10_witness :
    list_roles_filter "public.joe" = some (sql_name_pattern "public.joe").2
    ∧ list_schemas_filter "public.joe" = some (sql_name_pattern "public.joe").2 :=
  C10_theorem.1 "public.joe" (by decide)

/-! ## Descriptor engine: row types and helpers -/

/-- First index at which `sub` occurs in `s`, like Python `str.find`
(`none` models the `-1` "not found" result). -/
def findSubAux : List Char → List Char → Nat → Option Nat
  | [], sub, i => if sub = [] then some i else none
  | c :: rest, sub, i =>
      if sub.isPrefixOf (c :: rest) then some i else findSubAux rest sub (i + 1)

/-- `row[1].find(" TRIGGER ")` followed by the slice `row[1][tgdef:]`:  when
the marker is found the definition is sliced from nine characters past it;
when it is not found, `tgdef` is still the *string* and `row[1][tgdef:]`
raises a `TypeError` (string used as a slice index). -/
def stripTrigger (tgdef : String) : Except PyErr String :=
  match findSubAux tgdef.toList " TRIGGER ".toList 0 with
  | some p => Except.ok (String.mk (tgdef.toList.drop (p + 9)))
  | none => Except.error PyErr.typeError

/-- `indexdef.find(" USING ")` followed by `indexdef[(usingpos + 7):]` when
found, the unchanged definition otherwise. -/
def stripUsing (indexdef : String) : String :=
  match findSubAux indexdef.toList " USING ".toList 0 with
  | some p => String.mk (indexdef.toList.drop (p + 7))
  | none => indexdef

/-- Python `str()` of a one-element tuple holding a string, as produced by
`"%s" % (spacer, row)` where `row` is a whole result row (the source formats
the row tuple itself, not its element). -/
def tuple1Repr (s : String) : String := "('" ++ s ++ "',)"

/-- A raw `pg_attribute` row as selected by the column query of
`describe_one_table_details` (field names follow the selected expressions).
`indexdef` and `fdwoptions` model the columns the query aliases `indexdef`
and `attfdwoptions`; the query selects `NULL` for them unless the relation
kind is `'i'` resp. `'f'`. -/
structure AttrRow where
  attname : String
  typeName : String
  defaultExpr : Option String
  attnotnull : Bool
  attnum : Int
  attcollation : Option String
  indexdef : String
  fdwoptions : String
  attstorage : String
  attstattarget : Option Int
  description : Option String
  attisdropped : Bool
deriving DecidableEq, Repr

/-- The `WHERE a.attnum > 0 AND NOT a.attisdropped` filter of the column
query. -/
def attrKeep (a : AttrRow) : Bool :=
  decide (0 < a.attnum) && !a.attisdropped

/-- The `ORDER BY a.attnum` ordering of the column query. -/
def attLe (a b : AttrRow) : Prop := a.attnum ≤ b.attnum

instance : DecidableRel attLe := fun a b => inferInstanceAs (Decidable (a.attnum ≤ b.attnum))

instance : IsTotal AttrRow attLe := ⟨fun a b => Int.le_total a.attnum b.attnum⟩

instance : IsTrans AttrRow attLe := ⟨fun _ _ _ hab hbc => le_trans hab hbc⟩

/-- The row of the initial `pg_class` query of `describe_one_table_details`,
in `SELECT` order: `relchecks, relkind, relhasindex, relhasrules,
relhastriggers, relhasoids, <reloptions string>, reltablespace,
<reloftype text>, relpersistence`.  The seventh column is the
`array_to_string(c.reloptions || ...)` expression when verbose and the
literal `''` otherwise. -/
structure SqlClassRow where
  relchecks : Int
  relkind : Char
  relhasindex : Bool
  relhasrules : Bool
  relhastriggers : Bool
  relhasoids : Bool
  reloptionsStr : String
  reltablespace : Int
  reloftype : String
  relpersistence : Char
deriving DecidableEq, Repr

/-- The `TableInfo` namedtuple.  Its field list names `tablespace` *before*
`reloptions`, while the query selects the reloptions string before
`reltablespace`; `TableInfo._make` assigns positionally, so `tablespace`
receives the reloptions *string* and `reloptions` receives the tablespace
*integer*.  The two mismatched fields are therefore typed `Val`. -/
structure TableInfo where
  checks : Int
  relkind : Char
  hasindex : Bool
  hasrules : Bool
  hastriggers : Bool
  hasoids : Bool
  tablespace : Val
  reloptions : Val
  reloftype : String
  relpersistence : Char
deriving DecidableEq, Repr

/-- A trigger row: `tgname, pg_get_triggerdef(...), tgenabled`. -/
structure TrigRow where
  tgname : String
  tgdef : String
  tgenabled : Char
deriving DecidableEq, Repr

/-- A rewrite-rule row: `rulename, pg_get_ruledef(...), ev_enabled`. -/
structure RuleRow where
  rulename : String
  ruledef : String
  evEnabled : Char
deriving DecidableEq, Repr

/-- The single row of the index-metadata query run for `relkind == 'i'`. -/
structure IndexMetaRow where
  indisunique : Bool
  indisprimary : Bool
  indisclustered : Bool
  indisvalid : Bool
  condeferrable : Bool
  condeferred : Bool
  amname : String
  tablename : String
  indpred : Option String
deriving DecidableEq, Repr

/-- A row of the per-table index listing query (`hasindex` footer).  The
`contype` column comes from a `LEFT JOIN` and may be SQL `NULL` (`none`). -/
structure IndexListRow where
  relname : String
  indisprimary : Bool
  indisunique : Bool
  indisclustered : Bool
  indisvalid : Bool
  indexdef : String
  constraintdef : String
  contype : Option Char
  condeferrable : Bool
  condeferred : Bool
  tablespace : Int
deriving DecidableEq, Repr

/-- The per-relation result sets of every query `describe_one_table_details`
can issue, i.e. the Catalog Access Port's answers for one relation. -/
structure RelDb where
  classRows : List SqlClassRow
  seqRows : List (List Val)
  attrs : List AttrRow
  viewdefRows : List String
  indexMetaRows : List IndexMetaRow
  seqOwnerRows : List String
  indexListRows : List IndexListRow
  checkRows : List (String × String)
  fkRows : List (String × String)
  refRows : List (String × String × String)
  ruleRows : List RuleRow
  viewRuleRows : List (String × String)
  trigRows : List TrigRow
  foreignServerRows : List (String × String)
  inheritRows : List String
  childRows : List String

/-- `TableInfo._make(cur.fetchone())` on the `pg_class` query result
(`none` when the query returned no row).  The positional mismatch between
the namedtuple fields and the selected columns is reproduced. -/
def fetchTableInfo (rdb : RelDb) (verbose : Bool) : Option TableInfo :=
  match rdb.classRows.head? with
  | none => none
  | some row => some
      { checks := row.relchecks
        relkind := row.relkind
        hasindex := row.relhasindex
        hasrules := row.relhasrules
        hastriggers := row.relhastriggers
        hasoids := row.relhasoids
        tablespace := Val.str (if verbose then row.reloptionsStr else "")
        reloptions := Val.int row.reltablespace
        reloftype := row.reloftype
        relpersistence := row.relpersistence }

/-- The result of the column query: raw attribute rows filtered by
`attnum > 0 AND NOT attisdropped` and ordered by `attnum`. -/
def getColumnRows (rdb : RelDb) : List AttrRow :=
  List.insertionSort attLe (rdb.attrs.filter attrKeep)

/-- `relkind in ('r', 'v', 'm', 'f', 'c')`: the kinds with a Modifiers column
(the same set gates the Description column). -/
def relkindHasModifiers (k : Char) : Bool :=
  (k == 'r') || (k == 'v') || (k == 'm') || (k == 'f') || (k == 'c')

/-- `relkind in ('r', 'm', 'f')`: the table-like kinds. -/
def isTableLike (k : Char) : Bool :=
  (k == 'r') || (k == 'm') || (k == 'f')

/-- The cell-building loop tests `TableInfo.relkind == 'i'`, i.e. it compares
the namedtuple *class attribute* (a property object) with `'i'`; that
comparison is false for every relation. -/
def tableInfoClassRelkindEqI : Bool := false

/-- The header list of the column section. -/
def mkHeaders (ti : TableInfo) (verbose : Bool) : List String :=
  let h := ["Column", "Type"]
  let h := if relkindHasModifiers ti.relkind then h ++ ["Modifiers"] else h
  let h := if ti.relkind = 'S' then h ++ ["Value"] else h
  let h := if ti.relkind = 'i' then h ++ ["Definition"] else h
  let h := if ti.relkind = 'f' then h ++ ["FDW Options"] else h
  if verbose then
    h ++ ["Storage"]
      ++ (if isTableLike ti.relkind then ["Stats target"] else [])
      ++ (if relkindHasModifiers ti.relkind then ["Description"] else [])
  else h

def valOfOptInt : Option Int → Val
  | none => Val.none
  | some n => Val.int n

def valOfOptStr : Option String → Val
  | none => Val.none
  | some s => Val.str s

/-- One iteration of the cell-building loop (`for i, row in enumerate(res)`).
`seqValues` is the row fetched by `SELECT * FROM <sequence>`; indexing it out
of range raises `IndexError`, and `storage[0]` on an empty string likewise. -/
def mkCell (ti : TableInfo) (verbose : Bool) (seqValues : List Val) (i : Nat)
    (a : AttrRow) : Except PyErr (List Val) := do
  let cell := [Val.str a.attname, Val.str a.typeName]
  let cell := if relkindHasModifiers ti.relkind then
      cell ++ [Val.str (
        (if truthyOpt a.attcollation then " collate " ++ a.attcollation.getD "" else "")
        ++ (if a.attnotnull then " not null" else "")
        ++ (if truthyOpt a.defaultExpr then " default " ++ a.defaultExpr.getD "" else ""))]
    else cell
  let cell ← if ti.relkind = 'S' then
      match seqValues[i]? with
      | some v => pure (cell ++ [v])
      | none => Except.error PyErr.indexError
    else pure cell
  let cell := if tableInfoClassRelkindEqI then
      cell ++ [if ti.relkind = 'i' then Val.str a.indexdef else Val.none]
    else cell
  let cell := if ti.relkind = 'f' then cell ++ [Val.str a.fdwoptions] else cell
  if verbose then do
    let st ← match a.attstorage.toList.head? with
      | none => Except.error PyErr.indexError
      | some ch => pure (if ch = 'p' then "plain" else if ch = 'm' then "main"
          else if ch = 'x' then "extended" else if ch = 'e' then "external" else "???")
    let cell := cell ++ [Val.str st]
    let cell := if isTableLike ti.relkind then cell ++ [valOfOptInt a.attstattarget] else cell
    let cell := if relkindHasModifiers ti.relkind then cell ++ [valOfOptStr a.description] else cell
    pure cell
  else pure cell

/-- The cell rows of the column section. -/
def mkCells (ti : TableInfo) (verbose : Bool) (seqValues : List Val)
    (res : List AttrRow) : Except PyErr (List (List Val)) :=
  res.enum.mapM (fun p => mkCell ti verbose seqValues p.1 p.2)

/-! ## Footer sections -/

/-- Concatenation of a list of string lists. -/
def concatAll (l : List (List String)) : List String :=
  l.foldr (· ++ ·) []

/-- The index-kind footer (`relkind == 'i'`): the source tuple-unpacks
`cur.fetchone()`, which raises `TypeError` when the query returned no row.
Note the source appends `", invalid"` when `indisvalid` is *true*. -/
def indexMetaFooter (rdb : RelDb) (schema_name : String) : Except PyErr (List String) :=
  match rdb.indexMetaRows.head? with
  | none => Except.error PyErr.typeError
  | some m => Except.ok
      ((if m.indisprimary then ["primary key, "]
        else if m.indisunique then ["unique, "] else [])
       ++ [m.amname ++ ", "]
       ++ ["for table \"" ++ schema_name ++ "." ++ m.tablename ++ "\""]
       ++ (if truthyOpt m.indpred then [", predicate (" ++ m.indpred.getD "" ++ ")"] else [])
       ++ (if m.indisclustered then [", clustered"] else [])
       ++ (if m.indisvalid then [", invalid"] else [])
       ++ (if m.condeferrable then [", deferrable"] else [])
       ++ (if m.condeferred then [", initially deferred"] else [])
       ++ ["\n"])

/-- The sequence-kind footer (`relkind == 'S'`): the source subscripts
`result[0]` on the value of `cur.fetchone()`, which is `None` when the owner
query returned no rows — subscripting `None` raises `TypeError`. -/
def seqOwnerFooter (rdb : RelDb) : Except PyErr (List String) :=
  match rdb.seqOwnerRows.head? with
  | none => Except.error PyErr.typeError
  | some owner => Except.ok ["Owned by: " ++ owner]

/-- One row of the `Indexes:` listing of a table-like relation. -/
def indexListLine (r : IndexListRow) : List String :=
  ["    \"" ++ r.relname ++ "\""]
  ++ (if r.contype = some 'x' then [r.constraintdef]
      else
        (if r.indisprimary then [" PRIMARY KEY,"]
         else if r.indisunique then
           (if r.contype = some 'u' then [" UNIQUE CONSTRAINT,"] else [" UNIQUE,"])
         else [])
        ++ [" " ++ stripUsing r.indexdef]
        ++ (if r.condeferrable then [" DEFERRABLE"] else [])
        ++ (if r.condeferred then [" INITIALLY DEFERRED"] else []))
  ++ (if r.indisclustered then [" CLUSTER"] else [])
  ++ (if !r.indisvalid then [" INVALID"] else [])
  ++ ["\n"]

def indexesBlock (rows : List IndexListRow) : List String :=
  (if rows.length > 0 then ["Indexes:\n"] else [])
  ++ concatAll (rows.map indexListLine)

/-- The check-constraints block; the trailing newline is appended inside the
`if tableinfo.checks:` gate, regardless of the row count. -/
def checksBlock (rows : List (String × String)) : List String :=
  (if rows.length > 0 then ["Check constraints:\n"] else [])
  ++ rows.map (fun r => "    \"" ++ r.1 ++ "\" " ++ r.2)
  ++ ["\n"]

def fkBlock (rows : List (String × String)) : List String :=
  (if rows.length > 0 then ["Foreign-key constraints:\n"] else [])
  ++ rows.map (fun r => "    \"" ++ r.1 ++ "\" " ++ r.2 ++ "\n")

/-- Incoming references; the `%` tuple is `(conname, conrelid, condef)`, so
the constraint name lands in the `TABLE "%s"` slot. -/
def refsBlock (rows : List (String × String × String)) : List String :=
  (if rows.length > 0 then ["Referenced by:\n"] else [])
  ++ rows.map (fun r => "    TABLE \"" ++ r.1 ++ "\" CONSTRAINT \"" ++ r.2.1 ++ "\" " ++ r.2.2 ++ "\n")

/-! ### Rules: category partitioning -/

/-- The category-0 pass of the table rules loop.  `list_rule` (`Option Bool`,
`none` = not yet assigned) is set to `True` when `row[2] == 'O'` and is never
reset between rows.  Reading it unassigned raises `NameError`; once a row is
listed, `ruledef += 12` (string plus int) raises `TypeError` before anything
is retained. -/
def rulesCat0 : List RuleRow → Option Bool → Except PyErr (List String)
  | [], _ => Except.ok []
  | r :: rest, listRule =>
      let listRule := if r.evEnabled = 'O' then some true else listRule
      match listRule with
      | none => Except.error PyErr.nameError
      | some false => rulesCat0 rest (some false)
      | some true => Except.error PyErr.typeError

/-- The `Rules` footer of a table-like relation (`hasrules` and not `'m'`).
`for row in cur` in the category loop consumes the cursor, so only category 0
ever sees rows; categories 1–3 iterate an exhausted cursor and contribute
nothing. -/
def rulesSection (rows : List RuleRow) : Except PyErr (List String) :=
  if rows.length > 0 then rulesCat0 rows none
  else Except.ok []

/-- The rules block printed under a verbose view definition: any row makes
`ruledef += 12` raise `TypeError` immediately. -/
def viewRulesLoop : List (String × String) → List String → Except PyErr (List String)
  | [], acc => Except.ok acc
  | _ :: _, _ => Except.error PyErr.typeError

def viewRulesSection (rows : List (String × String)) : Except PyErr (List String) :=
  if rows.length > 0 then viewRulesLoop rows ["Rules:\n"]
  else Except.ok []

/-! ### Triggers: category partitioning -/

/-- Membership test of a trigger in a category.  The source also compares
`tgenabled` with the Python booleans (`tgenabled == True` / `== False`) for
pre-8.3 servers; a character status flag never equals a Python boolean, so
those disjuncts are dropped for the `Char`-typed flag modelled here. -/
def trigMatches (category : Nat) (tg : Char) : Bool :=
  if category = 0 then tg = 'O'
  else if category = 1 then tg = 'D'
  else if category = 2 then tg = 'A'
  else if category = 3 then tg = 'R'
  else false

def trigHeading (category : Nat) : String :=
  if category = 0 then "Triggers:"
  else if category = 1 then "Disabled triggers:"
  else if category = 2 then "Triggers firing always:"
  else "Triggers firing on replica only:"

/-- The inner `for row in cur` loop of one trigger category.  `list_trigger`
is initialised once per *category*, not per row, so it stays `True` for every
row after the first match. -/
def triggersCat (category : Nat) : List TrigRow → Bool → Bool → List String →
    Except PyErr (List String)
  | [], _, _, acc => Except.ok acc
  | r :: rest, haveHeading, listTrigger, acc =>
      let listTrigger := listTrigger || trigMatches category r.tgenabled
      if listTrigger = false then triggersCat category rest haveHeading listTrigger acc
      else
        let acc := if haveHeading then acc else acc ++ [trigHeading category, "\n"]
        match stripTrigger r.tgdef with
        | Except.error e => Except.error e
        | Except.ok d => triggersCat category rest true listTrigger (acc ++ ["    " ++ d ++ "\n"])

/-- The `Triggers` footer.  Iterating the cursor in category 0 exhausts it,
so categories 1–3 see no rows at all. -/
def triggersSection (rows : List TrigRow) : Except PyErr (List String) :=
  if rows.length > 0 then do
    let s0 ← triggersCat 0 rows false false []
    let s1 ← triggersCat 1 [] false false s0
    let s2 ← triggersCat 2 [] false false s1
    let s3 ← triggersCat 3 [] false false s2
    pure s3
  else Except.ok []

/-! ### Foreign server / inheritance footers -/

/-- The foreign-server footer of a foreign table: `row[0]` on a `None`
fetchone raises `TypeError`; when the options column is truthy the source
formats the undefined name `ftoptions`, raising `NameError`. -/
def foreignServerBlock (rows : List (String × String)) : Except PyErr (List String) :=
  match rows.head? with
  | none => Except.error PyErr.typeError
  | some r =>
      if r.2 ≠ "" then Except.error PyErr.nameError
      else Except.ok ["Server: " ++ r.1 ++ "\n"]

/-- `"%s: %s,\n" % (spacer, row)` lines: after the first line the spacer is
eight spaces (`len('Inherits')`), and `row` is the whole one-column result
tuple, formatted as a Python tuple. -/
def inheritLines : List String → String → List String
  | [], _ => []
  | r :: rest, spacer =>
      (spacer ++ ": " ++ tuple1Repr r ++ ",\n") :: inheritLines rest "        "

def inheritsBlock (rows : List String) : List String :=
  (if rows.length > 0 then ["Inherits"] else []) ++ inheritLines rows ""

/-- Child-table lines under the verbose listing, spacer `len('Child tables')`
= twelve spaces after the first line. -/
def childLines : List String → String → List String
  | [], _ => []
  | r :: rest, spacer =>
      (spacer ++ ": " ++ tuple1Repr r ++ ",\n") :: childLines rest "            "

/-- The child-tables footer: a count when not verbose (the source's adjacent
string literals concatenate to `list` + `them`), the listing when verbose. -/
def childrenBlock (rows : List String) (verbose : Bool) : List String :=
  if !verbose then
    if rows.length > 0 then
      ["Number of child tables: " ++ toString rows.length ++ " (Use \\d+ to listthem.)\n"]
    else []
  else
    (if rows.length > 0 then ["Child tables"] else []) ++ childLines rows ""

/-- All footer sections of `describe_one_table_details`, in source order. -/
def mkFooters (rdb : RelDb) (ti : TableInfo) (schema_name : String)
    (viewDef : Option String) (verbose : Bool) : Except PyErr (List String) := do
  let s1 ← if ti.relkind = 'i' then indexMetaFooter rdb schema_name
    else if ti.relkind = 'S' then seqOwnerFooter rdb
    else if isTableLike ti.relkind then do
      let a := if ti.hasindex then indexesBlock rdb.indexListRows else []
      let b := if ti.checks ≠ 0 then checksBlock rdb.checkRows else []
      let c := if ti.hastriggers then fkBlock rdb.fkRows else []
      let d := if ti.hastriggers then refsBlock rdb.refRows else []
      let e ← if ti.hasrules ∧ ti.relkind ≠ 'm' then rulesSection rdb.ruleRows
        else pure []
      pure (a ++ b ++ c ++ d ++ e)
    else pure []
  let s2 ← match viewDef with
    | some v => do
        let vr ← if ti.hasrules then viewRulesSection rdb.viewRuleRows else pure []
        pure (["View definition:\n", v ++ " \n"] ++ vr)
    | none => pure []
  let s3 ← if ti.hastriggers then triggersSection rdb.trigRows else pure []
  let s4 ← if isTableLike ti.relkind then do
      let f ← if ti.relkind = 'f' then foreignServerBlock rdb.foreignServerRows
        else pure []
      let inh := inheritsBlock rdb.inheritRows
      let ch := childrenBlock rdb.childRows verbose
      let ty := if ti.reloftype ≠ "" then ["Typed table of type: " ++ ti.reloftype ++ "\n"] else []
      let oi := if verbose ∧ ti.relkind ≠ 'm' then
          ["Has OIDs: " ++ (if ti.hasoids then "yes" else "no") ++ "\n"] else []
      pure (f ++ inh ++ ch ++ ty ++ oi)
    else pure []
  let s5 := if verbose ∧ truthyVal ti.reloptions then
      ["Options: " ++ pyValStr ti.reloptions ++ "\n"] else []
  pure (s1 ++ s2 ++ s3 ++ s4 ++ s5)

/-- The quadruple `(title, cells, headers, status)` returned for one special
command result (the title slot is always `None` in the source's returns). -/
abbrev SpecialResult := Option Unit × Option (List (List Val)) × Option (List String) × String

/-- `describe_one_table_details(cur, schema_name, relation_name, oid,
verbose)` over the per-relation result sets `rdb`. -/
def describe_one_table_details (rdb : RelDb) (schema_name relation_name : String)
    (oid : Nat) (verbose : Bool) : Except PyErr SpecialResult :=
  match fetchTableInfo rdb verbose with
  | none =>
      Except.ok (none, none, none,
        "Did not find any relation with OID " ++ toString oid ++ ".")
  | some tableinfo =>
      if tableinfo.relkind = 'S' ∧ rdb.seqRows = [] then
        Except.ok (none, none, none, "Something went wrong.")
      else
        let seqValues := rdb.seqRows.headD []
        let res := getColumnRows rdb
        let headers := mkHeaders tableinfo verbose
        let viewDef : Option String :=
          if (tableinfo.relkind = 'v' ∨ tableinfo.relkind = 'm') ∧ verbose then
            rdb.viewdefRows.head?
          else none
        do
          let cells ← mkCells tableinfo verbose seqValues res
          let status ← mkFooters rdb tableinfo schema_name viewDef verbose
          pure (none, some cells, some headers, String.join status)

/-- The whole-database inputs of `describe_table_details`: the no-pattern
listing result, the relation resolution query (taking the applied schema and
name filters), and the per-relation result sets. -/
structure Db where
  listingRows : List (List Val)
  listingStatus : String
  resolve : Option String → Option String → List (Nat × String × String)
  rel : Nat → RelDb

/-- A compiled filter component as actually bound into the resolution query:
the source adds a `WHERE` clause only when the component is truthy. -/
def truthyFilter (o : Option String) : Option String :=
  if truthyOpt o then o else none

/-- `describe_table_details(cur, pattern, verbose)`.  An empty pattern runs
the plain listing query; otherwise the pattern is compiled, matching
relations are resolved, and zero matches yield the `Did not find any
relation` result instead of descriptors. -/
def describe_table_details (db : Db) (pattern : String) (verbose : Bool) :
    Except PyErr (List SpecialResult) :=
  if pattern = "" then
    Except.ok [(none, some db.listingRows, some ["Schema", "Name", "Type", "Owner"],
      db.listingStatus)]
  else
    let rows := db.resolve (truthyFilter (sql_name_pattern pattern).1)
      (truthyFilter (sql_name_pattern pattern).2)
    if rows.length > 0 then
      rows.mapM (fun r => describe_one_table_details (db.rel r.1) r.2.1 r.2.2 r.1 verbose)
    else
      Except.ok [(none, none, none,
        "Did not find any relation named " ++ pattern ++ ".")]

/-! ## Concrete catalog inputs used by the claim theorems -/

/-- A `RelDb` whose every query returns no rows. -/
def emptyRelDb : RelDb :=
  { classRows := []
    seqRows := []
    attrs := []
    viewdefRows := []
    indexMetaRows := []
    seqOwnerRows := []
    indexListRows := []
    checkRows := []
    fkRows := []
    refRows := []
    ruleRows := []
    viewRuleRows := []
    trigRows := []
    foreignServerRows := []
    inheritRows := []
    childRows := [] }

/-- A `Db` whose resolution query matches no relation. -/
def cdb4 : Db :=
  { listingRows := []
    listingStatus := ""
    resolve := fun _ _ => []
    rel := fun _ => emptyRelDb }

/-- The `pg_class` row of a sequence relation. -/
def seqClassRow : SqlClassRow :=
  { relchecks := 0
    relkind := 'S'
    relhasindex := false
    relhasrules := false
    relhastriggers := false
    relhasoids := false
    reloptionsStr := ""
    reltablespace := 0
    reloftype := ""
    relpersistence := 'p' }

/-- The `TableInfo` namedtuple built from `seqClassRow` (non-verbose). -/
def seqTableInfo : TableInfo :=
  { checks := 0
    relkind := 'S'
    hasindex := false
    hasrules := false
    hastriggers := false
    hasoids := false
    tablespace := Val.str ""
    reloptions := Val.int 0
    reloftype := ""
    relpersistence := 'p' }

/-- The single attribute row of the sequence. -/
def seqAttr : AttrRow :=
  { attname := "last_value"
    typeName := "bigint"
    defaultExpr := none
    attnotnull := true
    attnum := 1
    attcollation := none
    indexdef := ""
    fdwoptions := ""
    attstorage := "p"
    attstattarget := none
    description := none
    attisdropped := false }

/-- A sequence relation whose owner query returns zero rows. -/
def cdb5 : RelDb :=
  { emptyRelDb with
    classRows := [seqClassRow]
    seqRows := [[Val.int 1]]
    attrs := [seqAttr] }

/-- A sequence relation whose `SELECT * FROM <sequence>` returns no row. -/
def cdb6 : RelDb := { cdb5 with seqRows := [] }

/-- The `TableInfo` of an index relation. -/
def c8ti : TableInfo :=
  { checks := 0
    relkind := 'i'
    hasindex := false
    hasrules := false
    hastriggers := false
    hasoids := false
    tablespace := Val.str ""
    reloptions := Val.int 0
    reloftype := ""
    relpersistence := 'p' }

/-- An index attribute row carrying its catalog index definition. -/
def c8attr : AttrRow :=
  { attname := "x"
    typeName := "integer"
    defaultExpr := none
    attnotnull := false
    attnum := 1
    attcollation := none
    indexdef := "btree (x)"
    fdwoptions := ""
    attstorage := "p"
    attstattarget := none
    description := none
    attisdropped := false }

/-- An enabled (`'O'`) trigger row. -/
def c1trigEnabled : TrigRow :=
  ⟨"t1", "CREATE TRIGGER t1 BEFORE INSERT ON tbl FOR EACH ROW EXECUTE PROCEDURE f()", 'O'⟩

/-- A disabled (`'D'`) trigger row. -/
def c1trigDisabled : TrigRow :=
  ⟨"t2", "CREATE TRIGGER t2 BEFORE INSERT ON tbl FOR EACH ROW EXECUTE PROCEDURE f()", 'D'⟩

/-! ## Claims about the descriptor engine -/

/-- Claim C1 (code bug): the category partitioning of triggers and rules is
broken.  For the trigger rows `[enabled 'O', disabled 'D']`, the disabled
trigger is emitted under the *enabled* heading `Triggers:` (the `list_trigger`
flag is initialised once per category, not per row, so it stays `True` after
the first match), and no `Disabled triggers:` heading ever appears (the
cursor is exhausted after the category-0 pass).  A lone disabled trigger is
emitted in *no* bucket at all.  Any non-empty rules result raises an
exception (`list_rule` is read before assignment, and a listed rule hits
`ruledef += 12`). -/
theorem C1_code_bug :
    triggersSection [c1trigEnabled, c1trigDisabled] =
      Except.ok ["Triggers:", "\n",
        "    t1 BEFORE INSERT ON tbl FOR EACH ROW EXECUTE PROCEDURE f()\n",
        "    t2 BEFORE INSERT ON tbl FOR EACH ROW EXECUTE PROCEDURE f()\n"]
    ∧ triggersSection [c1trigDisabled] = Except.ok []
    ∧ rulesSection [⟨"r1", "CREATE RULE r1 AS ON SELECT TO tbl DO INSTEAD NOTHING", 'D'⟩] =
        Except.error PyErr.nameError :=
  ⟨rfl, rfl, rfl⟩

/-- Claim C4: when the resolution query of a non-empty pattern matches zero
relations, `describe_table_details` returns the singleton
`Did not find any relation named <pattern>.` result — not an empty list and
not an exception. -/
theorem C4_theorem (db : Db) (pattern : String) (verbose : Bool)
    (h1 : pattern ≠ "")
    (h2 : db.resolve (truthyFilter (sql_name_pattern pattern).1)
        (truthyFilter (sql_name_pattern pattern).2) = []) :
    describe_table_details db pattern verbose =
      Except.ok [(none, none, none,
        "Did not find any relation named " ++ pattern ++ ".")] := by
  unfold describe_table_details
  rw [if_neg h1, h2]
  exact rfl

/-- Witness for C4: a catalog resolving nothing, with pattern `users`. -/
theorem C4_witness :
    describe_table_details cdb4 "users" false =
      Except.ok [(none, none, none,
        "Did not find any relation named " ++ "users" ++ ".")] :=
  C4_theorem cdb4 "users" false (by decide) rfl

/-- Claim C5 (code bug): for a sequence whose owner lookup returns zero rows,
the source subscripts `cur.fetchone()`'s `None` result and raises `TypeError`
instead of omitting the `Owned by` line (its own comment says "If we get no
rows back, don't show anything"). -/
theorem C5_code_bug :
    cdb5.seqOwnerRows = []
    ∧ describe_one_table_details cdb5 "public" "sq" 5 false =
        Except.error PyErr.typeError :=
  ⟨rfl, rfl⟩

/-- Claim C6 counterexample: when the sequence's current-value fetch returns
no row, the descriptor is *not* assembled: the call returns early with the
bare result `(None, None, None, 'Something went wrong.')` — no cells and no
headers — although the relation has an attribute row to describe, and the
status names no "sequence state unavailable" condition. -/
theorem C6_counterexample :
    describe_one_table_details cdb6 "public" "sq" 6 false =
      Except.ok (none, none, none, "Something went wrong.")
    ∧ cdb6.attrs ≠ [] :=
  ⟨rfl, by decide⟩

/-- Claim C6 (amended): for every sequence relation whose
`SELECT * FROM <sequence>` returns no row, `describe_one_table_details`
returns early with `(None, None, None, 'Something went wrong.')`; the rest of
the descriptor (columns, headers, footers) is not assembled. -/
theorem C6_theorem (rdb : RelDb) (sn rn : String) (oid : Nat) (verbose : Bool)
    (ti : TableInfo) (h1 : fetchTableInfo rdb verbose = some ti)
    (h2 : ti.relkind = 'S') (h3 : rdb.seqRows = []) :
    describe_one_table_details rdb sn rn oid verbose =
      Except.ok (none, none, none, "Something went wrong.") := by
  simp only [describe_one_table_details, h1]
  rw [if_pos ⟨h2, h3⟩]

/-- Witness for C6: the concrete sequence relation `cdb6`. -/
theorem C6_witness :
    describe_one_table_details cdb6 "public" "sq" 7 false =
      Except.ok (none, none, none, "Something went wrong.") :=
  C6_theorem cdb6 "public" "sq" 7 false seqTableInfo rfl rfl rfl

/-- Claim C7: the column rows used to build the column section contain no
attribute with non-positive attribute number and none marked dropped, and
they are ordered ascending by attribute number. -/
theorem C7_theorem (rdb : RelDb) :
    (∀ a ∈ getColumnRows rdb, 0 < a.attnum ∧ a.attisdropped = false)
    ∧ List.Pairwise attLe (getColumnRows rdb) := by
  constructor
  · intro a ha
    have hmem : a ∈ rdb.attrs.filter attrKeep :=
      (List.perm_insertionSort attLe (rdb.attrs.filter attrKeep)).mem_iff.mp ha
    have hk : attrKeep a = true := (List.mem_filter.mp hmem).2
    unfold attrKeep at hk
    simp only [Bool.and_eq_true, decide_eq_true_eq, Bool.not_eq_true'] at hk
    exact hk
  · exact List.sorted_insertionSort attLe (rdb.attrs.filter attrKeep)

/-- Witness for C7: the sequence relation `cdb5`, whose single kept attribute
has number `1` and is not dropped. -/
theorem C7_witness :
    (0 < seqAttr.attnum ∧ seqAttr.attisdropped = false)
    ∧ List.Pairwise attLe (getColumnRows cdb5) :=
  ⟨(C7_theorem cdb5).1 seqAttr (by decide), (C7_theorem cdb5).2⟩

/-- Claim C8 (code bug): for an index relation the column section carries a
`Definition` header, but no cell ever receives the index definition: the cell
loop guards the append with `TableInfo.relkind == 'i'`, comparing the
namedtuple *class attribute* with `'i'`, which is always false — so the cell
has two entries under three headers. -/
theorem C8_code_bug :
    mkHeaders c8ti false = ["Column", "Type", "Definition"]
    ∧ mkCells c8ti false [] [c8attr] = Except.ok [[Val.str "x", Val.str "integer"]] :=
  ⟨rfl, rfl⟩
